import Mathlib

/-!
Shallow embedding of the data_to_web tabular rendering pipeline
(src/data_to_web/table_field_array.py, templates.py, composite_webpage.py)
and proofs about its behaviour.

Conventions of the embedding:
* Python machine floats are modelled as rationals; the float coercible
  inputs of the formatters are the rationals they denote.
* Rows of the dataset are total maps from column name to value; user
  supplied formatter callables are total Lean functions.
* Fallible Python code (raise) is embedded with Except PyError.
* Stateful objects (TableFieldArray with its three lazy caches, the
  process wide pandas display options) are explicit state records, and
  their methods are state passing functions.
-/

/-- Values stored in dataset rows: the subset of Python values the
embedded code inspects. -/
inductive PyValue where
  | none
  | int (n : Int)
  | str (s : String)
deriving DecidableEq

/-- Python str() on an embedded value. -/
def pyStr : PyValue → String
  | .none => "None"
  | .int n => toString n
  | .str s => s

/-- A dataset row: itertuples style attribute access by column name. -/
abbrev Row : Type := String → PyValue

/-- An HTML attribute dictionary: attribute name to attribute value. -/
abbrev AttrDict : Type := List (String × String)

/-- A display header is either a Python str or some other object; an
object carries exactly the two attributes the code reads from it: its
string attribute (used by df_pretty) and its str() rendering (used when
a template interpolates it). -/
inductive HeaderVal where
  | str (s : String)
  | obj (stringAttr : String) (strRendering : String)
deriving DecidableEq

/-- str() of a header value, as a template interpolation performs it. -/
def HeaderVal.asJinjaStr : HeaderVal → String
  | .str s => s
  | .obj _ r => r

/-- The Python exceptions the embedded code can raise. -/
inductive PyError where
  | keyError (msg : String)
  | valueError (msg : String)
  | typeError (msg : String)
  | undefinedError (msg : String)
deriving DecidableEq

/-- A pandas DataFrame, reduced to what the code uses: an ordered list
of column names and the list of rows. -/
structure DataFrame where
  columns : List String
  rows : List Row

/-- Column projection df[cols]: the resulting view carries the given
columns. Embedded rows are total maps, so row access is unchanged. -/
def DataFrame.select (df : DataFrame) (cols : List String) : DataFrame :=
  { columns := cols, rows := df.rows }

/-- Lookup in a Python dict built by repeated assignment from an
association list: the last binding of a key wins. -/
def dictLookup (m : List (String × String)) (key : String) : Option String :=
  ((m.filter (fun p => p.1 == key)).getLast?).map (fun p => p.2)

/-- df.rename over columns: every column name that the mapping binds is
replaced, all other column names are kept. -/
def DataFrame.rename (df : DataFrame) (m : List (String × String)) : DataFrame :=
  { columns := df.columns.map (fun c => (dictLookup m c).getD c), rows := df.rows }

/-- TableField: one column descriptor (source class TableField).
The fields headerVal and attributesFcnVal embed the private attributes
written by the constructor; the public header and attributes_fcn
accessors are defined below, following the source properties. -/
structure TableField where
  name : String
  is_data : Bool
  visible : Bool
  fcn : Option (Row → String)
  headerVal : Option HeaderVal
  attributesFcnVal : Option (Row → AttrDict)

/-- TableField constructor: stores its arguments and performs no
validation of any kind (the source init body is six assignments). -/
def TableField.init (name : String) (is_data visible : Bool)
    (fcn : Option (Row → String)) (header : Option HeaderVal)
    (attributes_fcn : Option (Row → AttrDict)) : TableField :=
  { name := name, is_data := is_data, visible := visible,
    fcn := fcn, headerVal := header, attributesFcnVal := attributes_fcn }

/-- The header property: the stored header, or the name when absent. -/
def TableField.header (f : TableField) : HeaderVal :=
  match f.headerVal with
  | Option.none => HeaderVal.str f.name
  | Option.some h => h

/-- The function property: the stored formatter, or stringification of
the named attribute of the row when absent. -/
def TableField.function (f : TableField) : Row → String :=
  match f.fcn with
  | Option.none => fun x => pyStr (x f.name)
  | Option.some g => g

/-- The attributes_fcn property: the stored attribute formatter, or the
constant empty dict when absent. -/
def TableField.attributes_fcn (f : TableField) : Row → AttrDict :=
  match f.attributesFcnVal with
  | Option.none => fun _ => []
  | Option.some g => g

/-- Floor of a rational, computed directly from the normalized
numerator and denominator (the denominator is positive), so that it
evaluates by kernel reduction. -/
def ratFloor (q : Rat) : Int :=
  q.num / (q.den : Int)

/-- Exact product of a rational with an integer, computed on the
numerator so that it evaluates by kernel reduction. -/
def ratScaleByInt (q : Rat) (k : Int) : Rat :=
  Rat.divInt (q.num * k) (q.den : Int)

/-- Python int() on a float value: truncation toward zero. -/
def ratTruncToInt (q : Rat) : Int :=
  if 0 ≤ q then ratFloor q else -((-q.num) / (q.den : Int))

/-- Rounding of a rational to an integer as C style float formatting
performs it: to the nearest, ties to the even integer. The comparison
of the fractional part (q - f, a rational with numerator num2 over
q.den) against one half is done exactly on the numerators. -/
def roundHalfToEven (q : Rat) : Int :=
  let f : Int := ratFloor q
  let num2 : Int := q.num - f * (q.den : Int)
  if 2 * num2 < (q.den : Int) then f
  else if (q.den : Int) < 2 * num2 then f + 1
  else if f % 2 = 0 then f else f + 1

/-- The last p decimal digits of a natural number, left padded with
zeros to exactly p characters. -/
def natToPaddedDigits (n : Nat) : Nat → List Char
  | 0 => []
  | p + 1 => natToPaddedDigits (n / 10) p ++ [Nat.digitChar (n % 10)]

/-- Fixed point decimal rendering of a rational with p decimals, as the
percent f conversion of the formatting operator produces it: the
absolute value scaled by ten to the p, rounded half to even, split into
integer part and p zero padded fraction digits, with the sign of the
input in front. -/
def formatFixed (q : Rat) (p : Nat) : String :=
  let n : Nat :=
    (roundHalfToEven (mkRat (Int.ofNat (q.num.natAbs * 10 ^ p)) q.den)).toNat
  let signPart : String := if q.num < 0 then "-" else ""
  if p = 0 then signPart ++ toString n
  else
    signPart ++ toString (n / 10 ^ p) ++ "." ++
      String.mk (natToPaddedDigits (n % 10 ^ p) p)

/-- The two possible results of TableField.format_int: the int 0 for the
none_to_zero case, a string otherwise. -/
inductive PyRes where
  | int (n : Int)
  | str (s : String)
deriving DecidableEq

/-- TableField.format_int. A val of Option.none embeds Python None; any
float coercible value is embedded as the rational it denotes. Faithful
to the source: when val is None and none_to_zero is false the code
returns the string None (no exception is raised). -/
def format_int (val : Option Rat) (none_to_zero : Bool) : PyRes :=
  match val with
  | Option.none => if none_to_zero then PyRes.int 0 else PyRes.str ("None")
  | Option.some q => PyRes.str (toString (ratTruncToInt q))

/-- TableField.format_percent: builds the template percent dot zero p f
and applies it to float(val) * 100 (the exact product, see
ratScaleByInt_eq_mul below). -/
def format_percent (val : Rat) (precision : Nat) : String :=
  formatFixed (ratScaleByInt val 100) precision ++ " %"

/-- Descriptors flagged as data (the source filter over is_data). -/
def filterData (fields : List TableField) : List TableField :=
  fields.filter (fun f => f.is_data)

/-- Descriptors flagged as visible (the source filter over visible). -/
def filterVisible (fields : List TableField) : List TableField :=
  fields.filter (fun f => f.visible)

/-- TableFieldArray.get_data_fields. -/
def getDataFields (fields : List TableField) : List String :=
  (filterData fields).map (fun f => f.name)

/-- TableFieldArray.get_data_header. -/
def getDataHeader (fields : List TableField) : List HeaderVal :=
  (filterData fields).map (fun f => f.header)

/-- TableFieldArray.get_output_header. -/
def getOutputHeader (fields : List TableField) : List HeaderVal :=
  (filterVisible fields).map (fun f => f.header)

/-- TableFieldArray.get_output_functions. -/
def getOutputFunctions (fields : List TableField) : List (Row → String) :=
  (filterVisible fields).map (fun f => f.function)

/-- TableFieldArray.get_output_tag_attribute_functions. -/
def getOutputTagAttributeFunctions (fields : List TableField) :
    List (Row → AttrDict) :=
  (filterVisible fields).map (fun f => f.attributes_fcn)

/-- TableFieldArray.get_column_formatters: zip of the two lists above. -/
def getColumnFormatters (fields : List TableField) :
    List ((Row → String) × (Row → AttrDict)) :=
  (getOutputFunctions fields).zip (getOutputTagAttributeFunctions fields)

/-- TableFieldArray.iter_data_rows: empty when the data is None,
otherwise the rows of the data projected onto the data columns. -/
def iterDataRows (fields : List TableField) (data : Option DataFrame) :
    List Row :=
  match data with
  | Option.none => []
  | Option.some df => (df.select (getDataFields fields)).rows

/-- One body entry of the structured table dict: the formatted values v
and the attribute dict list a of one row. -/
structure BodyRow where
  v : List String
  a : List AttrDict
deriving DecidableEq

/-- The structured table dict: thead holds the header list v, tbody the
body rows (source keys thead.v and tbody). -/
structure TableDict where
  thead : List HeaderVal
  tbody : List BodyRow
deriving DecidableEq

/-- TableFieldArray.iter_formatted_rows: per data row, the source loop
appends fcn(row) to vals and attr_function(row) to attrs for each
formatter pair, yielding the pair of lists. -/
def iterFormattedRows (fields : List TableField) (data : Option DataFrame) :
    List BodyRow :=
  (iterDataRows fields data).map (fun row =>
    { v := (getColumnFormatters fields).map (fun p => p.1 row),
      a := (getColumnFormatters fields).map (fun p => p.2 row) })

/-- The table dict computed from the current inputs (the body of the
table_dict property when the cache is empty). -/
def computeTableDict (fields : List TableField) (data : Option DataFrame) :
    TableDict :=
  { thead := getOutputHeader fields, tbody := iterFormattedRows fields data }

/-- The header coercion of df_pretty: a str header is used as is, any
other header object is replaced by its string attribute. -/
def headerAsColumnName : HeaderVal → String
  | .str s => s
  | .obj sAttr _ => sAttr

/-- The rename dict of df_pretty, built by iterating
zip(data_headers, data_fields) and assigning rename of field := header. -/
def buildRenameMap (data_headers : List HeaderVal) (data_fields : List String) :
    List (String × String) :=
  (data_headers.zip data_fields).map (fun p => (p.2, headerAsColumnName p.1))

/-- The DataFrame computed by the df_pretty property from the current
inputs: data restricted to the data columns, renamed by header. -/
def dfPrettyCompute (fields : List TableField) (df : DataFrame) : DataFrame :=
  (df.select (getDataFields fields)).rename
    (buildRenameMap (getDataHeader fields) (getDataFields fields))

/-- The value a template variable can hold where the table template
reads row.a: a string, a Python list, or a Python dict. -/
inductive JinjaVal where
  | vstr (s : String)
  | vlist (l : List JinjaVal)
  | vdict (d : AttrDict)

/-- Evaluation of the template expression value.items(): defined for a
dict; on any other value the attribute lookup yields an Undefined and
calling it raises UndefinedError (jinja2 default undefined). -/
def JinjaVal.items : JinjaVal → Except PyError AttrDict
  | .vdict d => Except.ok d
  | _ => Except.error (PyError.undefinedError ("items"))

/-- One td cell of TPL_TABLE: the attribute loop iterates
row.a.items(), then the cell value is interpolated. -/
def renderTd (rowAttrs : JinjaVal) (val : String) : Except PyError String := do
  let attrItems ← rowAttrs.items
  pure ("      <td" ++
    String.join (attrItems.map (fun p =>
      " " ++ p.1 ++ "=\x22" ++ p.2 ++ "\x22")) ++
    ">" ++ val ++ "</td>\n")

/-- One tr row of TPL_TABLE: a td per entry of row.v, each decorated
from row.a.items() where row.a is the list of per column attr dicts. -/
def renderRow (row : BodyRow) : Except PyError String := do
  let tds ← row.v.mapM (renderTd (JinjaVal.vlist (row.a.map JinjaVal.vdict)))
  pure ("    <tr>\n" ++ String.join tds ++ "    </tr>\n")

/-- TPL_TABLE.render(head, body): thead only when head is truthy (non
empty), tbody only when body is truthy, a th per header and a tr per
body row. -/
def renderTable (head : List HeaderVal) (body : List BodyRow) :
    Except PyError String := do
  let headPart : String :=
    if head.isEmpty then "" else
      "  <thead>\n    <tr>\n      " ++
        String.join (head.map (fun h => "<th>" ++ h.asJinjaStr ++ "</th>")) ++
        "\n    </tr>\n  </thead>\n"
  let bodyPart ←
    if body.isEmpty then pure ("") else do
      let rs ← body.mapM renderRow
      pure ("  <tbody>\n" ++ String.join rs ++ "  </tbody>\n")
  pure ("<table class=\x22table table-striped table-bordered\x22>\n" ++
    headPart ++ bodyPart ++ "</table>\n")

/-- The state of a TableFieldArray instance: the two inputs and the
three lazily computed caches (source attributes with one leading
underscore). -/
structure TableFieldArray where
  table_fields : List TableField
  data : Option DataFrame
  tableDictCache : Option TableDict
  tableHtmlCache : Option String
  dfPrettyCache : Option DataFrame

/-- TableFieldArray constructor: table_fields or empty list, data as
given, all caches empty. -/
def TableFieldArray.init (table_fields : Option (List TableField))
    (data : Option DataFrame) : TableFieldArray :=
  { table_fields := table_fields.getD [], data := data,
    tableDictCache := Option.none, tableHtmlCache := Option.none,
    dfPrettyCache := Option.none }

/-- TableFieldArray._reset_properties: clears the table dict and the
df pretty caches. Faithful to the source: the html cache is not
cleared. -/
def resetProperties (s : TableFieldArray) : TableFieldArray :=
  { s with tableDictCache := Option.none, dfPrettyCache := Option.none }

/-- The table_fields setter: reset the properties, then assign. -/
def setTableFields (s : TableFieldArray) (val : List TableField) :
    TableFieldArray :=
  { resetProperties s with table_fields := val }

/-- The data setter: reset the properties, then assign. -/
def setData (s : TableFieldArray) (val : Option DataFrame) :
    TableFieldArray :=
  { resetProperties s with data := val }

/-- TableFieldArray.get_field: linear scan for the first descriptor
with the given name, KeyError when none matches. -/
def getFieldAux : List TableField → String → Except PyError TableField
  | [], n => Except.error (PyError.keyError ("Field " ++ n ++ " not found."))
  | f :: t, n => if f.name = n then Except.ok f else getFieldAux t n

/-- get_field on the instance (also the getitem indexing path). -/
def TableFieldArray.get_field (s : TableFieldArray) (name : String) :
    Except PyError TableField :=
  getFieldAux s.table_fields name

/-- The table_dict property: return the cache when set, otherwise
compute from the current inputs and memoize. -/
def getTableDict (s : TableFieldArray) : TableDict × TableFieldArray :=
  match s.tableDictCache with
  | Option.some d => (d, s)
  | Option.none =>
      let d := computeTableDict s.table_fields s.data
      (d, { s with tableDictCache := Option.some d })

/-- The table_html property: return the cache when set, otherwise read
table_dict (memoizing it) and render the table template; the rendered
string is cached only when rendering succeeds. -/
def getTableHtml (s : TableFieldArray) :
    Except PyError String × TableFieldArray :=
  match s.tableHtmlCache with
  | Option.some h => (Except.ok h, s)
  | Option.none =>
      let (d, s1) := getTableDict s
      match renderTable d.thead d.tbody with
      | Except.ok h => (Except.ok h, { s1 with tableHtmlCache := Option.some h })
      | Except.error e => (Except.error e, s1)

/-- The df_pretty property: return the cache when set; subscripting a
None data raises TypeError; otherwise compute and memoize. -/
def getDfPretty (s : TableFieldArray) :
    Except PyError DataFrame × TableFieldArray :=
  match s.dfPrettyCache with
  | Option.some d => (Except.ok d, s)
  | Option.none =>
      match s.data with
      | Option.none =>
          (Except.error (PyError.typeError ("NoneType is not subscriptable")), s)
      | Option.some df =>
          let d := dfPrettyCompute s.table_fields df
          (Except.ok d, { s with dfPrettyCache := Option.some d })

/-- Character class of the name validation in CompositePage.PageElement:
digits, ASCII letters and the underscore. -/
def isNameChar (c : Char) : Bool :=
  c.isAlphanum || c = '_'

/-- CompositePage.PageElement, reduced to the attributes the embedding
needs; plot_object, the html cache and format_fcn are opaque
collaborators the validation never reads. -/
structure PageElement where
  ix : Int
  title : Option String
  caption : Option String
  name : Option String
deriving DecidableEq

/-- PageElement constructor: stores its arguments; when a name is
supplied and stripping the characters outside the name class changes
its length, raises ValueError (invalid name). -/
def PageElement.init (index : Int) (title caption : Option String)
    (name : Option String) : Except PyError PageElement :=
  match name with
  | Option.none =>
      Except.ok { ix := index, title := title, caption := caption,
                  name := Option.none }
  | Option.some n =>
      if n.length ≠ (String.mk (n.toList.filter isNameChar)).length then
        Except.error (PyError.valueError ("invalid name."))
      else
        Except.ok { ix := index, title := title, caption := caption,
                    name := Option.some n }

/-- The stored value of the pandas option display.float_format: absent,
the non scientific formatter of CompositePage, or some other formatter
object (identified by a tag: the frame property below only stores and
restores the reference). -/
inductive FloatFormatSetting where
  | absent
  | nonScientificFloatFormat
  | other (tag : Nat)
deriving DecidableEq

/-- The process wide pandas display options df_to_html touches. -/
structure PandasOptions where
  maxColwidth : Option Int
  floatFormat : FloatFormatSetting
deriving DecidableEq

/-- CompositePage.df_to_html as a transformer of the pandas option
state. The dtype dependent collaborators are parameters: convertIntFn
embeds _convert_int_columns and toHtmlFn embeds DataFrame.to_html,
which reads the options and may raise. Faithful to the source order:
read old width, set -1, read old float format, set the non scientific
formatter when requested, render inside try, restore both options in
finally whatever the outcome. -/
def dfToHtml (convertIntFn : DataFrame → DataFrame)
    (toHtmlFn : DataFrame → PandasOptions → Except PyError String)
    (df : DataFrame) (int_convert non_scientific : Bool)
    (opts : PandasOptions) : Except PyError String × PandasOptions :=
  let df1 := if int_convert then convertIntFn df else df
  let old_width := opts.maxColwidth
  let opts1 := { opts with maxColwidth := Option.some (-1) }
  let old_float_format := opts1.floatFormat
  let opts2 :=
    if non_scientific then
      { opts1 with floatFormat := FloatFormatSetting.nonScientificFloatFormat }
    else opts1
  match toHtmlFn df1 opts2 with
  | Except.ok out =>
      (Except.ok out,
       { opts2 with maxColwidth := old_width, floatFormat := old_float_format })
  | Except.error e =>
      (Except.error e,
       { opts2 with maxColwidth := old_width, floatFormat := old_float_format })

theorem natToPaddedDigits_length (n p : Nat) :
    (natToPaddedDigits n p).length = p := by
  induction p generalizing n with
  | zero => rfl
  | succ p ih => simp [natToPaddedDigits, ih]

theorem digitChar_isDigit : ∀ m, m < 10 → (Nat.digitChar m).isDigit = true := by
  decide

theorem natToPaddedDigits_all_digits (n p : Nat) :
    (natToPaddedDigits n p).all Char.isDigit = true := by
  induction p generalizing n with
  | zero => rfl
  | succ p ih =>
      simp only [natToPaddedDigits, List.all_append, List.all_cons,
        List.all_nil, Bool.and_true, Bool.and_eq_true]
      exact ⟨ih _, digitChar_isDigit _ (Nat.mod_lt _ (by decide))⟩

/-- C3: format_int(None, none_to_zero=True) returns the int 0, but
format_int(None, none_to_zero=False) does not raise: it returns the
non numeric string None, contradicting both the spec sentence and the
docstring of the function (convert None to 0, raise otherwise). The
final conjuncts check truncation toward zero on non None inputs. -/
theorem c3_format_int_none_not_raising :
    format_int Option.none true = PyRes.int 0 ∧
    format_int Option.none false = PyRes.str ("None") ∧
    format_int (Option.some (mkRat 7 2)) false = PyRes.str ("3") ∧
    format_int (Option.some (mkRat (-7) 2)) true = PyRes.str ("-3") := by
  decide

theorem ratScaleByInt_eq_mul (q : Rat) (k : Int) :
    ratScaleByInt q k = q * (k : Rat) := by
  rw [ratScaleByInt, Rat.divInt_eq_div]
  push_cast
  rw [mul_comm ((q.num : Rat)) ((k : Rat)), mul_div_assoc, Rat.num_div_den,
    mul_comm]

theorem ratFloor_eq_floor (q : Rat) : ratFloor q = ⌊q⌋ := by
  rw [ratFloor, Rat.floor_def]

theorem ratTruncToInt_eq (q : Rat) :
    ratTruncToInt q = if 0 ≤ q then ⌊q⌋ else ⌈q⌉ := by
  rw [ratTruncToInt, ratFloor_eq_floor]
  rcases le_or_lt 0 q with h | h
  · simp [h]
  · have h2 : ¬(0 ≤ q) := not_le.mpr h
    simp only [h2, if_false]
    rw [← neg_neg ⌈q⌉, ← Int.floor_neg, Rat.floor_def, neg_inj]
    simp

theorem formatFixedScaled_eq_abs_mul (q : Rat) (p : Nat) :
    mkRat (Int.ofNat (q.num.natAbs * 10 ^ p)) q.den = |q| * (10 : Rat) ^ p := by
  rw [Rat.mkRat_eq_div, Int.ofNat_eq_natCast]
  push_cast
  conv_rhs => rw [← Rat.num_div_den q]
  rw [abs_div, Nat.abs_cast, div_mul_eq_mul_div]

theorem formatFixed_decomposition (q : Rat) (p : Nat) (hp : 0 < p) :
    ∃ ip fp, formatFixed q p = ip ++ "." ++ fp ∧ fp.length = p ∧
      fp.toList.all Char.isDigit = true := by
  have hp0 : p ≠ 0 := Nat.pos_iff_ne_zero.mp hp
  refine ⟨(if q.num < 0 then "-" else "") ++
      toString ((roundHalfToEven
        (mkRat (Int.ofNat (q.num.natAbs * 10 ^ p)) q.den)).toNat / 10 ^ p),
    String.mk (natToPaddedDigits ((roundHalfToEven
        (mkRat (Int.ofNat (q.num.natAbs * 10 ^ p)) q.den)).toNat % 10 ^ p) p),
    ?_, ?_, ?_⟩
  · simp only [formatFixed]
    rw [if_neg hp0]
  · show (natToPaddedDigits _ p).length = p
    exact natToPaddedDigits_length _ _
  · exact natToPaddedDigits_all_digits _ _

/-- C8: format_percent(0.5, 1) renders 50.0 percent and
format_percent(0.5, 0) renders 50 percent; in general the function
renders val times 100 (the genuine rational product, via
ratScaleByInt_eq_mul) through fixed point formatting, and for positive
precision the output splits as integer part, a dot, exactly p fraction
digits and the percent suffix. -/
theorem c8_format_percent_shape :
    format_percent (mkRat 1 2) 1 = "50.0 %" ∧
    format_percent (mkRat 1 2) 0 = "50 %" ∧
    ∀ (v : Rat) (p : Nat),
      format_percent v p = formatFixed (v * 100) p ++ " %" ∧
      (0 < p →
        ∃ ip fp, format_percent v p = ip ++ "." ++ fp ++ " %" ∧
          fp.length = p ∧ fp.toList.all Char.isDigit = true) := by
  refine ⟨by decide, by decide, fun v p => ⟨?_, fun hp => ?_⟩⟩
  · rw [format_percent, ratScaleByInt_eq_mul]
    norm_cast
  · obtain ⟨ip, fp, h1, h2, h3⟩ :=
      formatFixed_decomposition (ratScaleByInt v 100) p hp
    refine ⟨ip, fp, ?_, h2, h3⟩
    rw [format_percent, h1]

/-- Witness for C8 at val one half and precision one. -/
theorem c8_format_percent_shape_witness :
    ∃ ip fp, format_percent (mkRat 1 2) 1 = ip ++ "." ++ fp ++ " %" ∧
      fp.length = 1 ∧ fp.toList.all Char.isDigit = true :=
  (c8_format_percent_shape.2.2 (mkRat 1 2) 1).2 (by decide)

theorem length_filter_eq_iff {α : Type} (l : List α) (p : α → Bool) :
    (l.filter p).length = l.length ↔ ∀ a ∈ l, p a = true := by
  induction l with
  | nil => simp
  | cons a t ih =>
      by_cases ha : p a = true
      · simp [ha, ih]
      · simp only [List.filter_cons, ha, if_false, List.length_cons,
          List.mem_cons, Bool.not_eq_true]
        constructor
        · intro h
          exact absurd h
            (Nat.ne_of_lt (Nat.lt_succ_of_le (List.length_filter_le p t)))
        · intro h
          exact absurd (h a (Or.inl rfl)) ha

/-- C4 counterexample: constructing a TableField descriptor whose name
contains a space and an exclamation mark does not fail; the constructor
performs no validation and returns the descriptor unchanged. -/
theorem c4_tablefield_accepts_bad_name :
    TableField.init ("bad name!") true true Option.none Option.none
        Option.none =
      { name := "bad name!", is_data := true, visible := true,
        fcn := Option.none, headerVal := Option.none,
        attributesFcnVal := Option.none } := rfl

theorem badNameCondIff (n : String) :
    (n.length ≠ (String.mk (n.toList.filter isNameChar)).length) ↔
      ∃ ch ∈ n.toList, isNameChar ch = false := by
  have h1 : (String.mk (n.toList.filter isNameChar)).length =
      (n.toList.filter isNameChar).length := rfl
  have h2 : n.length = n.toList.length := rfl
  rw [h1, h2]
  constructor
  · intro hne
    by_contra hno
    push_neg at hno
    have hall : ∀ a ∈ n.toList, isNameChar a = true := by
      intro a ha
      cases hcase : isNameChar a
      · exact absurd hcase (hno a ha)
      · rfl
    exact hne ((length_filter_eq_iff n.toList isNameChar).mpr hall).symm
  · rintro ⟨ch, hmem, hch⟩ heq
    have hall := (length_filter_eq_iff n.toList isNameChar).mp heq.symm
    rw [hall ch hmem] at hch
    cases hch

/-- C4 amended: name validation lives on CompositePage.PageElement, not
on the TableField descriptor. PageElement construction with the name
bad name! (space and bang) fails with ValueError, with bad_name_1 it
succeeds, and in general construction with a supplied name fails
exactly when the name contains a character outside 0-9A-Za-z underscore. -/
theorem c4_pageelement_name_validation :
    PageElement.init 1 Option.none Option.none (Option.some ("bad name!")) =
      Except.error (PyError.valueError ("invalid name.")) ∧
    PageElement.init 1 Option.none Option.none (Option.some ("bad_name_1")) =
      Except.ok { ix := 1, title := Option.none, caption := Option.none,
                  name := Option.some ("bad_name_1") } ∧
    ∀ (ix : Int) (t c : Option String) (n : String),
      (∃ e, PageElement.init ix t c (Option.some n) = Except.error e) ↔
        ∃ ch ∈ n.toList, isNameChar ch = false := by
  refine ⟨rfl, rfl, fun ix t c n => ?_⟩
  simp only [PageElement.init]
  by_cases hc : n.length ≠ (String.mk (n.toList.filter isNameChar)).length
  · rw [if_pos hc]
    constructor
    · intro _
      exact (badNameCondIff n).mp hc
    · intro _
      exact ⟨PyError.valueError ("invalid name."), rfl⟩
  · rw [if_neg hc]
    constructor
    · rintro ⟨e, he⟩
      exact Except.noConfusion he
    · intro hex
      exact absurd ((badNameCondIff n).mpr hex) hc

theorem getFieldAux_spec (l : List TableField) (n : String) :
    ((∀ f ∈ l, f.name ≠ n) →
      ∃ msg, getFieldAux l n = Except.error (PyError.keyError msg)) ∧
    ((∃ f ∈ l, f.name = n) →
      ∃ f, getFieldAux l n = Except.ok f ∧ f.name = n ∧ f ∈ l) := by
  induction l with
  | nil =>
      constructor
      · intro _
        exact ⟨"Field " ++ n ++ " not found.", rfl⟩
      · rintro ⟨f, hf, _⟩
        cases hf
  | cons g t ih =>
      constructor
      · intro hall
        have hg : g.name ≠ n := hall g (List.mem_cons_self g t)
        rw [getFieldAux, if_neg hg]
        exact ih.1 (fun f hf => hall f (List.mem_cons_of_mem g hf))
      · rintro ⟨f, hf, hname⟩
        by_cases hg : g.name = n
        · refine ⟨g, ?_, hg, List.mem_cons_self g t⟩
          rw [getFieldAux, if_pos hg]
        · rw [getFieldAux, if_neg hg]
          rcases List.mem_cons.mp hf with rfl | hft
          · exact absurd hname hg
          · obtain ⟨f2, h1, h2, h3⟩ := ih.2 ⟨f, hft, hname⟩
            exact ⟨f2, h1, h2, List.mem_cons_of_mem g h3⟩

/-- C9: looking up a descriptor by a name that matches no descriptor
fails with the key lookup error; when a descriptor with that name
exists, get_field returns a descriptor with that name from the list. -/
theorem c9_get_field_lookup (s : TableFieldArray) (n : String) :
    ((∀ f ∈ s.table_fields, f.name ≠ n) →
      ∃ msg, s.get_field n = Except.error (PyError.keyError msg)) ∧
    ((∃ f ∈ s.table_fields, f.name = n) →
      ∃ f, s.get_field n = Except.ok f ∧ f.name = n ∧ f ∈ s.table_fields) :=
  getFieldAux_spec s.table_fields n

/-- Concrete descriptor list used by the C9 witness. -/
def c9field : TableField :=
  TableField.init ("a") true true Option.none Option.none Option.none

/-- Concrete TableFieldArray used by the C9 witness. -/
def c9tfa : TableFieldArray :=
  TableFieldArray.init (Option.some [c9field]) Option.none

/-- Witness for C9: on a TableFieldArray with the single field a, the
lookup of zz fails with KeyError and the lookup of a returns a field
named a. -/
theorem c9_get_field_lookup_witness :
    (∃ msg, c9tfa.get_field ("zz") = Except.error (PyError.keyError msg)) ∧
    (∃ f, c9tfa.get_field ("a") = Except.ok f ∧ f.name = "a" ∧
      f ∈ c9tfa.table_fields) :=
  ⟨(c9_get_field_lookup c9tfa ("zz")).1 (by
      intro f hf
      simp only [c9tfa, c9field, TableFieldArray.init, TableField.init,
        Option.getD, List.mem_singleton] at hf
      subst hf
      decide),
   (c9_get_field_lookup c9tfa ("a")).2 ⟨c9field, by
      simp [c9tfa, TableFieldArray.init], rfl⟩⟩

theorem getColumnFormatters_length (fields : List TableField) :
    (getColumnFormatters fields).length = (filterVisible fields).length := by
  simp [getColumnFormatters, getOutputFunctions,
    getOutputTagAttributeFunctions, List.length_zip]

/-- C6: the output header has one entry per visible descriptor, and
every row produced by iter_formatted_rows carries a value list and a
parallel attribute list of exactly that length, whatever the dataset. -/
theorem c6_projection_lengths (fields : List TableField)
    (data : Option DataFrame) :
    (getOutputHeader fields).length = fields.countP (fun f => f.visible) ∧
    ∀ row ∈ iterFormattedRows fields data,
      row.v.length = fields.countP (fun f => f.visible) ∧
      row.a.length = fields.countP (fun f => f.visible) := by
  have hcount : (filterVisible fields).length =
      fields.countP (fun f => f.visible) :=
    (List.countP_eq_length_filter _ _).symm
  constructor
  · simp [getOutputHeader, hcount]
  · intro row hrow
    simp only [iterFormattedRows, List.mem_map] at hrow
    obtain ⟨r, _, rfl⟩ := hrow
    constructor <;>
      simp [getColumnFormatters_length fields, hcount]

/-- Concrete descriptor used by the C6 witness. -/
def c6field : TableField :=
  TableField.init ("x") true true Option.none Option.none Option.none

/-- Concrete row used by the C6 witness. -/
def c6row : Row := fun _ => PyValue.int 1

/-- Concrete dataset used by the C6 witness. -/
def c6df : DataFrame := { columns := ["x"], rows := [c6row] }

/-- Witness for C6: with one visible data descriptor and one data row,
the header length and the produced row lengths all equal one. -/
theorem c6_projection_lengths_witness :
    (getOutputHeader [c6field]).length =
      ([c6field]).countP (fun f => f.visible) ∧
    ({ v := ["1"], a := [[]] } : BodyRow).v.length =
      ([c6field]).countP (fun f => f.visible) ∧
    ({ v := ["1"], a := [[]] } : BodyRow).a.length =
      ([c6field]).countP (fun f => f.visible) :=
  ⟨(c6_projection_lengths [c6field] (Option.some c6df)).1,
   (c6_projection_lengths [c6field] (Option.some c6df)).2
      { v := ["1"], a := [[]] } (by decide)⟩

/-- C5: reading table_dict twice with no intervening reassignment
returns the identical structure, and after reassigning data or
table_fields the next read returns the structure computed from the new
inputs (the caches are cleared by both setters). -/
theorem c5_table_dict_memoization (s : TableFieldArray)
    (fs2 : List TableField) (d2 : Option DataFrame) :
    (getTableDict (getTableDict s).2).1 = (getTableDict s).1 ∧
    (getTableDict (setData s d2)).1 = computeTableDict s.table_fields d2 ∧
    (getTableDict (setTableFields s fs2)).1 = computeTableDict fs2 s.data := by
  refine ⟨?_, ?_, ?_⟩
  · cases h : s.tableDictCache <;> simp [getTableDict, h]
  · simp [getTableDict, setData, resetProperties]
  · simp [getTableDict, setTableFields, resetProperties]

instance {e a : Type} [DecidableEq e] [DecidableEq a] :
    DecidableEq (Except e a) := fun x y =>
  match x, y with
  | Except.ok v, Except.ok w =>
      if h : v = w then Decidable.isTrue (by rw [h])
      else Decidable.isFalse (by intro hc; cases hc; exact h rfl)
  | Except.ok _, Except.error _ =>
      Decidable.isFalse (fun hc => Except.noConfusion hc)
  | Except.error _, Except.ok _ =>
      Decidable.isFalse (fun hc => Except.noConfusion hc)
  | Except.error v, Except.error w =>
      if h : v = w then Decidable.isTrue (by rw [h])
      else Decidable.isFalse (by intro hc; cases hc; exact h rfl)

/-- C10: df_to_html restores display.max_colwidth and
display.float_format to their prior values whatever the int conversion
and float format flags and whatever the outcome of the underlying
to_html rendering (success or exception): the option state after the
call equals the option state before it. -/
theorem c10_df_to_html_restores_options
    (convertIntFn : DataFrame → DataFrame)
    (toHtmlFn : DataFrame → PandasOptions → Except PyError String)
    (df : DataFrame) (int_convert non_scientific : Bool)
    (opts : PandasOptions) :
    (dfToHtml convertIntFn toHtmlFn df int_convert non_scientific opts).2 =
      opts := by
  rcases opts with ⟨w, ff⟩
  simp only [dfToHtml]
  split <;> rfl

/-- Concrete descriptors and state used by the C1 failing input. -/
def c1fieldA : TableField :=
  TableField.init ("a") true true Option.none Option.none Option.none

/-- Second descriptor list assigned in the C1 failing input. -/
def c1fieldB : TableField :=
  TableField.init ("b") true true Option.none Option.none Option.none

/-- Initial state of the C1 failing input: one field named a, no data. -/
def c1s0 : TableFieldArray :=
  TableFieldArray.init (Option.some [c1fieldA]) Option.none

/-- C1 failing input evaluated: read table_html once, reassign
table_fields to a field named b, then read both outputs again. The
table_dict now has head b, but table_html still returns the string
rendered from the old head a (its cache is never cleared), which
differs from a fresh rendering of the current table_dict. The HTML
string therefore reflects older inputs than the structured dict. -/
theorem c1_table_html_stale_cache :
    ((getTableHtml (setTableFields (getTableHtml c1s0).2 [c1fieldB])).1 =
      (getTableHtml c1s0).1) ∧
    ((getTableDict (setTableFields (getTableHtml c1s0).2 [c1fieldB])).1.thead =
      [HeaderVal.str ("b")]) ∧
    ((getTableHtml c1s0).1 ≠ renderTable [HeaderVal.str ("b")] []) := by
  refine ⟨rfl, rfl, ?_⟩
  decide

/-- Attribute function of the C2 failing input. -/
def c2attrFcn : Row → AttrDict := fun _ => [("class", "highlight")]

/-- Descriptor of the C2 failing input: visible data field x whose
attribute function returns a non empty mapping for every row. -/
def c2field : TableField :=
  TableField.init ("x") true true Option.none Option.none
    (Option.some c2attrFcn)

/-- Row of the C2 failing input. -/
def c2row : Row := fun _ => PyValue.int 1

/-- Dataset of the C2 failing input. -/
def c2df : DataFrame := { columns := ["x"], rows := [c2row] }

/-- State of the C2 failing input. -/
def c2s : TableFieldArray :=
  TableFieldArray.init (Option.some [c2field]) (Option.some c2df)

/-- C2 failing input evaluated: the structured dict carries the
attribute mapping class=highlight for the single cell, but rendering
table_html raises UndefinedError, because the template calls items() on
row.a, which is the per row list of per column attribute dicts and not
a dict. No td with those attributes is ever produced. -/
theorem c2_table_html_attributes_error :
    ((getTableDict c2s).1.tbody =
      [{ v := ["1"], a := [[("class", "highlight")]] }]) ∧
    ((getTableHtml c2s).1 =
      Except.error (PyError.undefinedError ("items"))) := by
  refine ⟨?_, ?_⟩ <;> decide

theorem filter_key_eq_singleton (l : List (String × String))
    (hnd : (l.map Prod.fst).Nodup) (p : String × String) (hp : p ∈ l) :
    l.filter (fun r => r.1 == p.1) = [p] := by
  induction l with
  | nil => cases hp
  | cons q t ih =>
      rw [List.map_cons, List.nodup_cons] at hnd
      obtain ⟨hq, hnd2⟩ := hnd
      rcases List.mem_cons.mp hp with rfl | hpt
      · rw [List.filter_cons, if_pos (by simp)]
        have ht : t.filter (fun r => r.1 == p.1) = [] := by
          apply List.filter_eq_nil_iff.mpr
          intro r hr
          simp only [beq_iff_eq]
          intro he
          exact hq (he ▸ List.mem_map_of_mem Prod.fst hr)
        rw [ht]
      · have hne : q.1 ≠ p.1 := by
          intro he
          exact hq (he ▸ List.mem_map_of_mem Prod.fst hpt)
        rw [List.filter_cons, if_neg (by simp [hne])]
        exact ih hnd2 hpt

theorem dictLookup_nodup (l : List (String × String))
    (hnd : (l.map Prod.fst).Nodup) (p : String × String) (hp : p ∈ l) :
    dictLookup l p.1 = Option.some p.2 := by
  rw [dictLookup, filter_key_eq_singleton l hnd p hp]
  rfl

theorem buildRenameMap_eq (fields : List TableField) :
    buildRenameMap (getDataHeader fields) (getDataFields fields) =
      (filterData fields).map
        (fun f => (f.name, headerAsColumnName f.header)) := by
  rw [buildRenameMap, getDataHeader, getDataFields, List.zip_map',
    List.map_map]
  rfl

/-- C7: with a dataset present and unique descriptor names, df_pretty
is the dataset view restricted to the data flagged columns where every
column is renamed to its descriptor header: str headers are used as
given and non str header objects are coerced through their string
attribute. The rows of the dataset are untouched. -/
theorem c7_df_pretty_rename (s : TableFieldArray) (df : DataFrame)
    (hdata : s.data = Option.some df)
    (hcache : s.dfPrettyCache = Option.none)
    (hnd : (s.table_fields.map (fun f => f.name)).Nodup) :
    (getDfPretty s).1 =
      Except.ok (DataFrame.mk
        ((filterData s.table_fields).map
          (fun f => headerAsColumnName f.header))
        df.rows) := by
  have hnd2 : ((filterData s.table_fields).map (fun f => f.name)).Nodup :=
    List.Nodup.sublist
      (List.Sublist.map (fun f => f.name)
        (List.filter_sublist s.table_fields)) hnd
  have hkeys : (((filterData s.table_fields).map
      (fun f => (f.name, headerAsColumnName f.header))).map Prod.fst).Nodup := by
    rw [List.map_map]
    exact hnd2
  have hcols : (getDataFields s.table_fields).map
      (fun c => (dictLookup (buildRenameMap (getDataHeader s.table_fields)
        (getDataFields s.table_fields)) c).getD c) =
      (filterData s.table_fields).map
        (fun f => headerAsColumnName f.header) := by
    rw [buildRenameMap_eq, getDataFields, List.map_map]
    apply List.map_congr_left
    intro f hf
    have hp : (f.name, headerAsColumnName f.header) ∈
        (filterData s.table_fields).map
          (fun g => (g.name, headerAsColumnName g.header)) :=
      List.mem_map_of_mem _ hf
    have hl := dictLookup_nodup _ hkeys _ hp
    simp only [Function.comp_apply]
    rw [hl]
    rfl
  simp only [getDfPretty, hcache, hdata]
  rw [dfPrettyCompute, DataFrame.select, DataFrame.rename]
  simp only [hcols]

/-- Descriptor with a non str header object used by the C7 witness. -/
def c7field : TableField :=
  TableField.init ("x") true true Option.none
    (Option.some (HeaderVal.obj ("Pretty X") ("reprX"))) Option.none

/-- Row used by the C7 witness. -/
def c7row : Row := fun _ => PyValue.int 3

/-- Dataset used by the C7 witness. -/
def c7df : DataFrame := { columns := ["x"], rows := [c7row] }

/-- State used by the C7 witness. -/
def c7s : TableFieldArray :=
  TableFieldArray.init (Option.some [c7field]) (Option.some c7df)

/-- Witness for C7: one data descriptor named x with the non str header
object whose string attribute is Pretty X; df_pretty returns the frame
with the single column Pretty X and the unchanged rows. -/
theorem c7_df_pretty_rename_witness :
    (getDfPretty c7s).1 =
      Except.ok { columns := ["Pretty X"], rows := c7df.rows } :=
  c7_df_pretty_rename c7s c7df rfl rfl (by decide)

/-- Witness for the amended C4: a name containing a space makes
PageElement construction fail. -/
theorem c4_pageelement_name_validation_witness :
    ∃ e, PageElement.init 2 Option.none Option.none (Option.some ("x y")) =
      Except.error e :=
  (c4_pageelement_name_validation.2.2 2 Option.none Option.none ("x y")).mpr
    ⟨' ', by decide, by decide⟩
